import Mathlib

/-!
Verification of the Trezor boardloader (`core/embed/boardloader/main.c`).

The boardloader is the first boot stage: it optionally installs a new
bootloader image from an SD card and then verifies and hands control to the
resident bootloader image.  We embed the control flow of `check_sdcard`,
`copy_sdcard` and `main` as pure Lean functions over an explicit environment
describing the outcomes of the external collaborators (flash driver, SD-card
driver, image-header loader, content checker).  Each run produces an event
trace recording the externally observable actions (power on/off, block reads,
signature checks, content checks, sector erases, word writes, delays,
the final hand-off) together with an outcome.
-/

/-- Modelled from the spec: fixed image-header size (`IMAGE_HEADER_SIZE` in
`image.h`, which is not part of this source slice); the header occupies a
fixed-size prefix of the image. -/
def IMAGE_HEADER_SIZE : Nat := 1024

/-- Modelled from the spec: SD-card block size (`SDCARD_BLOCK_SIZE` in
`sdcard.h`, not part of this source slice). -/
def SDCARD_BLOCK_SIZE : Nat := 512

/-- Modelled from the spec: start address of the bootloader flash region
(`BOOTLOADER_START`, not part of this source slice). -/
def BOOTLOADER_START : Nat := 0x08020000

/-- Modelled from the spec: the flash region map (`flash.h`, not part of this
source slice) assigns the boardloader (the running stage itself) the lowest
sectors, 0 through 2. -/
def FLASH_SECTOR_BOARDLOADER_START : Nat := 0

/-- Modelled from the spec: last sector of the boardloader region. -/
def FLASH_SECTOR_BOARDLOADER_END : Nat := 2

/-- Modelled from the spec: first storage region sector. -/
def FLASH_SECTOR_STORAGE_1 : Nat := 4

/-- Modelled from the spec: bootloader region sector. -/
def FLASH_SECTOR_BOOTLOADER : Nat := 5

/-- Modelled from the spec: first firmware sector. -/
def FLASH_SECTOR_FIRMWARE_START : Nat := 6

/-- Modelled from the spec: last firmware sector. -/
def FLASH_SECTOR_FIRMWARE_END : Nat := 11

/-- Modelled from the spec: first unused-range sector. -/
def FLASH_SECTOR_UNUSED_START : Nat := 12

/-- Modelled from the spec: last unused-range sector. -/
def FLASH_SECTOR_UNUSED_END : Nat := 15

/-- Modelled from the spec: second storage region sector. -/
def FLASH_SECTOR_STORAGE_2 : Nat := 16

/-- Modelled from the spec: first firmware-extra sector. -/
def FLASH_SECTOR_FIRMWARE_EXTRA_START : Nat := 17

/-- Modelled from the spec: last firmware-extra sector. -/
def FLASH_SECTOR_FIRMWARE_EXTRA_END : Nat := 23

/-- Modelled from the spec: the storage sector list (`STORAGE_SECTORS` in
`flash.c`, not part of this source slice): the two storage region sectors. -/
def STORAGE_SECTORS : List Nat := [FLASH_SECTOR_STORAGE_1, FLASH_SECTOR_STORAGE_2]

/-- The sectors occupied by the running stage (the boardloader) itself:
`FLASH_SECTOR_BOARDLOADER_START` through `FLASH_SECTOR_BOARDLOADER_END`. -/
def boardloaderOwnSectors : List Nat :=
  [FLASH_SECTOR_BOARDLOADER_START, FLASH_SECTOR_BOARDLOADER_START + 1,
   FLASH_SECTOR_BOARDLOADER_END]

/-- Which image a verification step applies to: the SD-card candidate or the
image resident in the bootloader flash region. -/
inductive ImgSrc where
  | card
  | resident
  deriving DecidableEq, Repr

/-- Externally observable actions of the boardloader. -/
inductive Event where
  | powerOn (ok : Bool)
  | powerOff
  | readBlocks (start count : Nat)
  | sigCheck (src : ImgSrc) (ok : Bool)
  | contentCheck (src : ImgSrc) (ok : Bool)
  | eraseSectors (sectors : List Nat) (ok : Bool)
  | unlock
  | lock
  | writeWord (sector offset : Nat)
  | delay (ms : Nat)
  | handOff (addr : Nat)
  deriving DecidableEq, Repr

/-- The state of the SD card as observed by one invocation of `check_sdcard`:
whether power-on succeeds, the reported capacity in bytes, whether the header
block read succeeds, whether `load_image_header` accepts the prefix, and the
code length the parsed header declares. -/
structure CardState where
  powerOnOk : Bool
  capacity : Nat
  readOk : Bool
  loadOk : Bool
  codelen : Nat
  deriving DecidableEq, Repr

/-- Embedding of `check_sdcard` (main.c lines 78 to 107): power the card on,
reject capacities below 1 MiB, read the header-sized prefix, power off, and
run `load_image_header`; return the parsed code length on success, else 0. -/
def checkSdcard (c : CardState) : List Event × Nat :=
  if c.powerOnOk = false then ([Event.powerOn false], 0)
  else if c.capacity < 1024 * 1024 then ([Event.powerOn true, Event.powerOff], 0)
  else if c.readOk = false then
    ([Event.powerOn true, Event.readBlocks 0 (IMAGE_HEADER_SIZE / SDCARD_BLOCK_SIZE),
      Event.powerOff], 0)
  else if c.loadOk = true then
    ([Event.powerOn true, Event.readBlocks 0 (IMAGE_HEADER_SIZE / SDCARD_BLOCK_SIZE),
      Event.powerOff, Event.sigCheck ImgSrc.card true], c.codelen)
  else
    ([Event.powerOn true, Event.readBlocks 0 (IMAGE_HEADER_SIZE / SDCARD_BLOCK_SIZE),
      Event.powerOff, Event.sigCheck ImgSrc.card false], 0)

/-- Embedding of the confirmation countdown in `copy_sdcard` (main.c lines 123
to 131): `for (int i = 10; i >= 0; i--)` prints the tick, delays 1000 ms, and
re-runs `check_sdcard`; a zero result aborts.  `countdownFrom cards i` runs
the remaining ticks `i, i-1, ..., 0`, where `cards i` is the card state the
tick with loop counter `i` observes.  It returns the trace and, when no tick
aborted, the code length of the final (counter 0) tick. -/
def countdownFrom (cards : Nat → CardState) : Nat → List Event × Option Nat
  | 0 =>
    if (checkSdcard (cards 0)).2 = 0 then
      (Event.delay 1000 :: (checkSdcard (cards 0)).1, none)
    else
      (Event.delay 1000 :: (checkSdcard (cards 0)).1, some (checkSdcard (cards 0)).2)
  | i + 1 =>
    if (checkSdcard (cards (i + 1))).2 = 0 then
      (Event.delay 1000 :: (checkSdcard (cards (i + 1))).1, none)
    else
      (Event.delay 1000 :: (checkSdcard (cards (i + 1))).1 ++ (countdownFrom cards i).1,
       (countdownFrom cards i).2)

/-- Embedding of the inner word-write loop of `copy_sdcard` (main.c lines 177
to 182): write `cnt` consecutive words of block `i` starting at word index
`j`; `wOk j` tells whether the verified write of word `j` succeeds.  A failed
write halts (the `ensure` fatal path), returning `false`. -/
def writeWords (wOk : Nat → Bool) (i : Nat) : Nat → Nat → List Event × Bool
  | _, 0 => ([], true)
  | j, cnt + 1 =>
    if wOk j = false then
      ([Event.writeWord FLASH_SECTOR_BOOTLOADER (i * SDCARD_BLOCK_SIZE + j * 4)], false)
    else
      (Event.writeWord FLASH_SECTOR_BOOTLOADER (i * SDCARD_BLOCK_SIZE + j * 4) ::
         (writeWords wOk i (j + 1) cnt).1,
       (writeWords wOk i (j + 1) cnt).2)

/-- Embedding of the block-copy loop of `copy_sdcard` (main.c lines 175 to
183): for `cnt` blocks starting at block `i`, read the block from the card and
write its `SDCARD_BLOCK_SIZE / 4` words to flash; a failed read or word write
halts, returning `false`. -/
def writeBlocks (rOk : Nat → Bool) (wOk : Nat → Nat → Bool) : Nat → Nat → List Event × Bool
  | _, 0 => ([], true)
  | i, cnt + 1 =>
    if rOk i = false then ([Event.readBlocks i 1], false)
    else if (writeWords (wOk i) i 0 (SDCARD_BLOCK_SIZE / 4)).2 = false then
      (Event.readBlocks i 1 :: (writeWords (wOk i) i 0 (SDCARD_BLOCK_SIZE / 4)).1, false)
    else
      (Event.readBlocks i 1 :: (writeWords (wOk i) i 0 (SDCARD_BLOCK_SIZE / 4)).1 ++
         (writeBlocks rOk wOk (i + 1) cnt).1,
       (writeBlocks rOk wOk (i + 1) cnt).2)

/-- The block count of the copy loop: `(IMAGE_HEADER_SIZE + codelen) /
SDCARD_BLOCK_SIZE` computed in 32-bit unsigned arithmetic, as in the C
expression (`codelen` is a `uint32_t`). -/
def nBlocks (codelen : Nat) : Nat :=
  ((IMAGE_HEADER_SIZE + codelen) % 2 ^ 32) / SDCARD_BLOCK_SIZE

/-- The sector list `copy_sdcard` passes to `flash_erase_sectors` (main.c
lines 136 to 158): every flash sector except the boardloader's own. -/
def copySdcardEraseList : List Nat :=
  [FLASH_SECTOR_STORAGE_1, FLASH_SECTOR_STORAGE_2, 3, FLASH_SECTOR_BOOTLOADER,
   FLASH_SECTOR_FIRMWARE_START, 7, 8, 9, 10, FLASH_SECTOR_FIRMWARE_END,
   FLASH_SECTOR_UNUSED_START, 13, 14, FLASH_SECTOR_UNUSED_END,
   FLASH_SECTOR_FIRMWARE_EXTRA_START, 18, 19, 20, 21, 22,
   FLASH_SECTOR_FIRMWARE_EXTRA_END]

/-- Collaborator outcomes for one run of `copy_sdcard`: the card state each
countdown tick observes, and the success of the erase, unlock, power-on,
per-block reads, per-word writes, and final lock. -/
structure CopyEnv where
  cards : Nat → CardState
  eraseOk : Bool
  unlockOk : Bool
  powerOnOk : Bool
  readOk : Nat → Bool
  writeOk : Nat → Nat → Bool
  lockOk : Bool

/-- Result of `copy_sdcard`: `success` is `sectrue`, `failure` is `secfalse`
(countdown abort or erase failure), `halted` is the non-returning fatal path
taken by a failed `ensure`. -/
inductive CopyResult where
  | success
  | failure
  | halted
  deriving DecidableEq, Repr

/-- Embedding of `copy_sdcard` (main.c lines 111 to 192): run the countdown;
on survival erase all non-boardloader sectors, unlock flash, power the card
on, stream `nBlocks codelen` blocks into the bootloader region word by word,
power off and lock.  `ensure` failures halt; the countdown abort and an erase
failure return `secfalse`. -/
def copySdcard (e : CopyEnv) : List Event × CopyResult :=
  if (countdownFrom e.cards 10).2 = none then
    ((countdownFrom e.cards 10).1, CopyResult.failure)
  else
    (((countdownFrom e.cards 10).1 ++ [Event.eraseSectors copySdcardEraseList e.eraseOk]) ++
       (if e.eraseOk = false then []
        else [Event.unlock] ++
          (if e.unlockOk = false then []
           else [Event.powerOn e.powerOnOk] ++
             (if e.powerOnOk = false then []
              else
                (writeBlocks e.readOk e.writeOk 0
                   (nBlocks ((countdownFrom e.cards 10).2.getD 0))).1 ++
                  (if (writeBlocks e.readOk e.writeOk 0
                         (nBlocks ((countdownFrom e.cards 10).2.getD 0))).2 = false then []
                   else [Event.powerOff, Event.lock])))),
     if e.eraseOk = false then CopyResult.failure
     else if e.unlockOk = false then CopyResult.halted
     else if e.powerOnOk = false then CopyResult.halted
     else if (writeBlocks e.readOk e.writeOk 0
                (nBlocks ((countdownFrom e.cards 10).2.getD 0))).2 = false then
       CopyResult.halted
     else if e.lockOk = false then CopyResult.halted
     else CopyResult.success)

/-- Outcome of one run of `main`: a process exit status, the non-returning
fatal halt, or the irreversible hand-off to the given address. -/
inductive Outcome where
  | exit (code : Nat)
  | halt
  | handOff (addr : Nat)
  deriving DecidableEq, Repr

/-- How `main` maps the `copy_sdcard` result to its own outcome (main.c line
228): `sectrue` exits 0, `secfalse` exits 3, a fatal halt stays a halt. -/
def copyOutcome : CopyResult → Outcome
  | CopyResult.success => Outcome.exit 0
  | CopyResult.failure => Outcome.exit 3
  | CopyResult.halted => Outcome.halt

/-- Collaborator outcomes for one run of `main`: the option-bytes check, the
(ignored) result of the storage-sector wipe on its failure, whether the
SD-card capability is present (`TREZOR_MODEL_T`), the card state of the
initial `check_sdcard`, the `copy_sdcard` environment, and the results of
`load_image_header` and `check_image_contents` on the resident image. -/
structure MainEnv where
  optionBytesOk : Bool
  storageEraseOk : Bool
  modelT : Bool
  initialCard : CardState
  copyEnv : CopyEnv
  residentLoadOk : Bool
  residentContentOk : Bool

/-- Embedding of the resident-image path of `main` (main.c lines 232 to 250):
`load_image_header` on the bootloader region (halting on failure), then
`check_image_contents` (halting on failure), then the hand-off to
`BOOTLOADER_START + IMAGE_HEADER_SIZE`. -/
def residentPath (e : MainEnv) : List Event × Outcome :=
  if e.residentLoadOk = false then
    ([Event.sigCheck ImgSrc.resident false], Outcome.halt)
  else if e.residentContentOk = false then
    ([Event.sigCheck ImgSrc.resident true, Event.contentCheck ImgSrc.resident false],
     Outcome.halt)
  else
    ([Event.sigCheck ImgSrc.resident true, Event.contentCheck ImgSrc.resident true,
      Event.handOff (BOOTLOADER_START + IMAGE_HEADER_SIZE)],
     Outcome.handOff (BOOTLOADER_START + IMAGE_HEADER_SIZE))

/-- Embedding of `main` (main.c lines 204 to 251): a failed option-bytes
configuration wipes the storage sectors (result ignored) and exits 2; on the
SD-card-capable model a nonzero `check_sdcard` delegates to `copy_sdcard` and
exits with its status; otherwise the resident image is verified and, on
success, receives control. -/
def mainRun (e : MainEnv) : List Event × Outcome :=
  if e.optionBytesOk = false then
    ([Event.eraseSectors STORAGE_SECTORS e.storageEraseOk], Outcome.exit 2)
  else if e.modelT = true then
    if (checkSdcard e.initialCard).2 ≠ 0 then
      ((checkSdcard e.initialCard).1 ++ (copySdcard e.copyEnv).1,
       copyOutcome (copySdcard e.copyEnv).2)
    else
      ((checkSdcard e.initialCard).1 ++ (residentPath e).1, (residentPath e).2)
  else
    residentPath e

/-- Does the event belong to the resident-image verification or the hand-off?
All SD-card activity is free of these. -/
def Event.residentStep : Event → Bool
  | Event.handOff _ => true
  | Event.sigCheck ImgSrc.resident _ => true
  | Event.contentCheck ImgSrc.resident _ => true
  | _ => false

/-- Does the event mutate flash (a sector erase or a word write)? -/
def Event.flashMutation : Event → Bool
  | Event.eraseSectors _ _ => true
  | Event.writeWord _ _ => true
  | _ => false

/-- Is the event a countdown tick delay? -/
def Event.isDelay : Event → Bool
  | Event.delay _ => true
  | _ => false

/-- Is the event an SD-card power-on attempt? -/
def Event.isPowerOn : Event → Bool
  | Event.powerOn _ => true
  | _ => false

/-- Is the event a block read? -/
def Event.isReadBlocks : Event → Bool
  | Event.readBlocks _ _ => true
  | _ => false

/-- Is the event the hand-off? -/
def Event.isHandOff : Event → Bool
  | Event.handOff _ => true
  | _ => false

/-- Every event `check_sdcard` emits is SD-card detection activity: no
resident-image step, no flash mutation, no lock/unlock, no hand-off, no
delay, and exactly the header-prefix block read. -/
theorem checkSdcard_events (c : CardState) :
    ∀ ev ∈ (checkSdcard c).1,
      ev.residentStep = false ∧ ev.flashMutation = false ∧
      ev ≠ Event.lock ∧ ev ≠ Event.unlock ∧ ev.isDelay = false := by
  unfold checkSdcard
  split_ifs <;> intro ev hev <;>
    simp only [List.mem_cons, List.mem_singleton, List.not_mem_nil, or_false] at hev <;>
    rcases hev with rfl | rfl | rfl | rfl <;> simp [Event.residentStep, Event.flashMutation,
      Event.isDelay]

/-- `check_sdcard` emits exactly one power-on attempt. -/
theorem checkSdcard_powerOn_count (c : CardState) :
    List.countP Event.isPowerOn (checkSdcard c).1 = 1 := by
  unfold checkSdcard
  split_ifs <;> simp [List.countP_cons, Event.isPowerOn]

/-- Every event the countdown emits is a tick delay or SD-card detection
activity; in particular no resident step, no flash mutation, no lock or
unlock. -/
theorem countdownFrom_events (cards : Nat → CardState) (n : Nat) :
    ∀ ev ∈ (countdownFrom cards n).1,
      ev.residentStep = false ∧ ev.flashMutation = false ∧
      ev ≠ Event.lock ∧ ev ≠ Event.unlock := by
  induction n with
  | zero =>
    unfold countdownFrom
    split_ifs <;> intro ev hev <;>
      rcases List.mem_cons.mp hev with rfl | h
    · simp [Event.residentStep, Event.flashMutation]
    · exact ⟨(checkSdcard_events _ ev h).1, (checkSdcard_events _ ev h).2.1,
        (checkSdcard_events _ ev h).2.2.1, (checkSdcard_events _ ev h).2.2.2.1⟩
    · simp [Event.residentStep, Event.flashMutation]
    · exact ⟨(checkSdcard_events _ ev h).1, (checkSdcard_events _ ev h).2.1,
        (checkSdcard_events _ ev h).2.2.1, (checkSdcard_events _ ev h).2.2.2.1⟩
  | succ n ih =>
    unfold countdownFrom
    split_ifs <;> intro ev hev <;>
      rcases List.mem_cons.mp hev with rfl | h
    · simp [Event.residentStep, Event.flashMutation]
    · exact ⟨(checkSdcard_events _ ev h).1, (checkSdcard_events _ ev h).2.1,
        (checkSdcard_events _ ev h).2.2.1, (checkSdcard_events _ ev h).2.2.2.1⟩
    · simp [Event.residentStep, Event.flashMutation]
    · rcases List.mem_append.mp h with h1 | h2
      · exact ⟨(checkSdcard_events _ ev h1).1, (checkSdcard_events _ ev h1).2.1,
          (checkSdcard_events _ ev h1).2.2.1, (checkSdcard_events _ ev h1).2.2.2.1⟩
      · exact ih ev h2

/-- Every event the word-write loop emits is a word write to the bootloader
sector. -/
theorem writeWords_shape (wOk : Nat → Bool) (i : Nat) :
    ∀ cnt j ev, ev ∈ (writeWords wOk i j cnt).1 →
      ∃ off, ev = Event.writeWord FLASH_SECTOR_BOOTLOADER off := by
  intro cnt
  induction cnt with
  | zero => intro j ev hev; simp [writeWords] at hev
  | succ cnt ih =>
    intro j ev hev
    unfold writeWords at hev
    split_ifs at hev
    · rcases List.mem_singleton.mp hev with rfl
      exact ⟨i * SDCARD_BLOCK_SIZE + j * 4, rfl⟩
    · rcases List.mem_cons.mp hev with rfl | h
      · exact ⟨i * SDCARD_BLOCK_SIZE + j * 4, rfl⟩
      · exact ih (j + 1) ev h

/-- Offsets written by the word-write loop stay below the end of the word
range that starts at word `j` and spans `cnt` words of block `i`. -/
theorem writeWords_offset (wOk : Nat → Bool) (i : Nat) :
    ∀ cnt j s off, Event.writeWord s off ∈ (writeWords wOk i j cnt).1 →
      off + 4 ≤ i * SDCARD_BLOCK_SIZE + (j + cnt) * 4 := by
  intro cnt
  induction cnt with
  | zero => intro j s off hev; simp [writeWords] at hev
  | succ cnt ih =>
    intro j s off hev
    unfold writeWords at hev
    split_ifs at hev
    · have h := List.mem_singleton.mp hev
      simp only [Event.writeWord.injEq] at h
      omega
    · rcases List.mem_cons.mp hev with h | h
      · simp only [Event.writeWord.injEq] at h
        omega
      · have := ih (j + 1) s off h
        omega

/-- The word-write loop emits no block-read events. -/
theorem writeWords_readCount (wOk : Nat → Bool) (i : Nat) :
    ∀ cnt j, List.countP Event.isReadBlocks (writeWords wOk i j cnt).1 = 0 := by
  intro cnt
  induction cnt with
  | zero => intro j; simp [writeWords]
  | succ cnt ih =>
    intro j
    unfold writeWords
    split_ifs <;> simp [List.countP_cons, Event.isReadBlocks, ih (j + 1)]

/-- Every event the block-copy loop emits is a single-block read or a word
write to the bootloader sector. -/
theorem writeBlocks_shape (rOk : Nat → Bool) (wOk : Nat → Nat → Bool) :
    ∀ cnt i ev, ev ∈ (writeBlocks rOk wOk i cnt).1 →
      (∃ b, ev = Event.readBlocks b 1) ∨
        ∃ off, ev = Event.writeWord FLASH_SECTOR_BOOTLOADER off := by
  intro cnt
  induction cnt with
  | zero => intro i ev hev; simp [writeBlocks] at hev
  | succ cnt ih =>
    intro i ev hev
    unfold writeBlocks at hev
    split_ifs at hev
    · rcases List.mem_singleton.mp hev with rfl
      exact Or.inl ⟨i, rfl⟩
    · rcases List.mem_cons.mp hev with rfl | h
      · exact Or.inl ⟨i, rfl⟩
      · exact Or.inr (writeWords_shape (wOk i) i _ 0 ev h)
    · rcases List.mem_cons.mp hev with rfl | h
      · exact Or.inl ⟨i, rfl⟩
      · rcases List.mem_append.mp h with h1 | h2
        · exact Or.inr (writeWords_shape (wOk i) i _ 0 ev h1)
        · exact ih (i + 1) ev h2

/-- Every offset the block-copy loop writes, starting at block `i` for `cnt`
blocks, ends at or before the end of block `i + cnt - 1`. -/
theorem writeBlocks_offset (rOk : Nat → Bool) (wOk : Nat → Nat → Bool) :
    ∀ cnt i s off, Event.writeWord s off ∈ (writeBlocks rOk wOk i cnt).1 →
      off + 4 ≤ (i + cnt) * SDCARD_BLOCK_SIZE := by
  intro cnt
  induction cnt with
  | zero => intro i s off hev; simp [writeBlocks] at hev
  | succ cnt ih =>
    intro i s off hev
    unfold writeBlocks at hev
    split_ifs at hev
    · rcases List.mem_singleton.mp hev with h
      exact absurd h (by simp)
    · rcases List.mem_cons.mp hev with h | h
      · exact absurd h (by simp)
      · have := writeWords_offset (wOk i) i _ 0 s off h
        have hb : i * SDCARD_BLOCK_SIZE + (0 + SDCARD_BLOCK_SIZE / 4) * 4
            = (i + 1) * SDCARD_BLOCK_SIZE := by
          simp [SDCARD_BLOCK_SIZE]; ring
        have hle : (i + 1) * SDCARD_BLOCK_SIZE ≤ (i + (cnt + 1)) * SDCARD_BLOCK_SIZE :=
          Nat.mul_le_mul_right _ (by omega)
        omega
    · rcases List.mem_cons.mp hev with h | h
      · exact absurd h (by simp)
      · rcases List.mem_append.mp h with h1 | h2
        · have := writeWords_offset (wOk i) i _ 0 s off h1
          have hb : i * SDCARD_BLOCK_SIZE + (0 + SDCARD_BLOCK_SIZE / 4) * 4
              = (i + 1) * SDCARD_BLOCK_SIZE := by
            simp [SDCARD_BLOCK_SIZE]; ring
          have hle : (i + 1) * SDCARD_BLOCK_SIZE ≤ (i + (cnt + 1)) * SDCARD_BLOCK_SIZE :=
            Nat.mul_le_mul_right _ (by omega)
          omega
        · have hih := ih (i + 1) s off h2
          have heq : i + 1 + cnt = i + (cnt + 1) := by omega
          rw [heq] at hih
          exact hih

/-- A completed block-copy loop over `cnt` blocks performs exactly `cnt`
block reads. -/
theorem writeBlocks_count (rOk : Nat → Bool) (wOk : Nat → Nat → Bool) :
    ∀ cnt i, (writeBlocks rOk wOk i cnt).2 = true →
      List.countP Event.isReadBlocks (writeBlocks rOk wOk i cnt).1 = cnt := by
  intro cnt
  induction cnt with
  | zero => intro i _; simp [writeBlocks]
  | succ cnt ih =>
    intro i hok
    unfold writeBlocks at hok ⊢
    split_ifs at hok ⊢ with h1 h2
    dsimp only at hok ⊢
    have hww := writeWords_readCount (wOk i) i (SDCARD_BLOCK_SIZE / 4) 0
    rw [List.countP_append, List.countP_cons, hww, ih (i + 1) hok]
    simp [Event.isReadBlocks]
    omega

/-- `check_sdcard` emits no tick delay. -/
theorem checkSdcard_delay_count (c : CardState) :
    List.countP Event.isDelay (checkSdcard c).1 = 0 :=
  List.countP_eq_zero.mpr (fun ev hev => by
    simp [(checkSdcard_events c ev hev).2.2.2.2])

/-- If the countdown survives all its ticks (returns a code length), then
every tick's detection returned a nonzero code length, and the surviving
value is the detection result of the final tick (loop counter 0). -/
theorem countdownFrom_some (cards : Nat → CardState) :
    ∀ n r, (countdownFrom cards n).2 = some r →
      (∀ i, i ≤ n → (checkSdcard (cards i)).2 ≠ 0) ∧ r = (checkSdcard (cards 0)).2 := by
  intro n
  induction n with
  | zero =>
    intro r hr
    unfold countdownFrom at hr
    split_ifs at hr with h
    dsimp only at hr
    rw [Option.some_inj] at hr
    refine ⟨fun i hi => ?_, hr.symm⟩
    rw [Nat.le_zero.mp hi]; exact h
  | succ n ih =>
    intro r hr
    unfold countdownFrom at hr
    split_ifs at hr with h
    dsimp only at hr
    obtain ⟨hall, hr0⟩ := ih r hr
    refine ⟨fun i hi => ?_, hr0⟩
    rcases Nat.lt_or_ge i (n + 1) with hlt | hge
    · exact hall i (Nat.lt_succ_iff.mp hlt)
    · rw [Nat.le_antisymm hi hge]; exact h

/-- If every tick's detection returns a nonzero code length, the countdown
survives, yields the final tick's code length, performs exactly `n + 1` tick
delays of 1000 ms and re-runs detection (one card power-on attempt) exactly
`n + 1` times. -/
theorem countdownFrom_complete (cards : Nat → CardState) :
    ∀ n, (∀ i, i ≤ n → (checkSdcard (cards i)).2 ≠ 0) →
      (countdownFrom cards n).2 = some ((checkSdcard (cards 0)).2) ∧
      List.countP Event.isDelay (countdownFrom cards n).1 = n + 1 ∧
      List.countP Event.isPowerOn (countdownFrom cards n).1 = n + 1 := by
  intro n
  induction n with
  | zero =>
    intro h
    have h0 := h 0 (Nat.le_refl 0)
    unfold countdownFrom
    rw [if_neg h0]
    refine ⟨rfl, ?_, ?_⟩
    · rw [List.countP_cons, checkSdcard_delay_count]
      simp [Event.isDelay]
    · rw [List.countP_cons, checkSdcard_powerOn_count]
      simp [Event.isPowerOn]
  | succ n ih =>
    intro h
    have hn := h (n + 1) (Nat.le_refl _)
    obtain ⟨hres, hdel, hpow⟩ := ih (fun i hi => h i (Nat.le_trans hi (Nat.le_succ n)))
    unfold countdownFrom
    rw [if_neg hn]
    dsimp only
    refine ⟨hres, ?_, ?_⟩
    · rw [List.countP_append, List.countP_cons, checkSdcard_delay_count, hdel]
      simp [Event.isDelay]
      omega
    · rw [List.countP_append, List.countP_cons, checkSdcard_powerOn_count, hpow]
      simp [Event.isPowerOn]
      omega

/-- When the countdown aborts, `copy_sdcard` returns `secfalse` with the
countdown trace as its whole trace. -/
theorem copySdcard_abort (e : CopyEnv) (hnone : (countdownFrom e.cards 10).2 = none) :
    copySdcard e = ((countdownFrom e.cards 10).1, CopyResult.failure) := by
  unfold copySdcard
  rw [if_pos hnone]

/-- Every event in the `copy_sdcard` trace is a countdown event, a block-copy
event, or one of the five fixed engine steps (the erase, the unlock, the
power-on, the power-off, the lock). -/
theorem copySdcard_trace_sub (e : CopyEnv) :
    ∀ ev ∈ (copySdcard e).1,
      ev ∈ (countdownFrom e.cards 10).1 ∨
      ev ∈ (writeBlocks e.readOk e.writeOk 0
              (nBlocks ((countdownFrom e.cards 10).2.getD 0))).1 ∨
      ev ∈ [Event.eraseSectors copySdcardEraseList e.eraseOk, Event.unlock,
            Event.powerOn e.powerOnOk, Event.powerOff, Event.lock] := by
  intro ev hev
  unfold copySdcard at hev
  split_ifs at hev <;> dsimp only at hev
  · exact Or.inl hev
  all_goals
    simp only [List.mem_append, List.mem_cons, List.mem_singleton, List.not_mem_nil,
      or_false, false_or, List.append_nil] at hev
  all_goals
    simp only [List.mem_cons, List.mem_singleton, List.not_mem_nil, or_false]
  all_goals tauto

/-- No event of the `copy_sdcard` trace is a resident-image verification step
or a hand-off. -/
theorem copySdcard_no_resident (e : CopyEnv) :
    ∀ ev ∈ (copySdcard e).1, ev.residentStep = false := by
  intro ev hev
  rcases copySdcard_trace_sub e ev hev with h | h | h
  · exact (countdownFrom_events e.cards 10 ev h).1
  · rcases writeBlocks_shape e.readOk e.writeOk _ 0 ev h with ⟨b, rfl⟩ | ⟨off, rfl⟩ <;> rfl
  · simp only [List.mem_cons, List.mem_singleton, List.not_mem_nil, or_false] at h
    rcases h with rfl | rfl | rfl | rfl | rfl <;> rfl

/-- `check_sdcard` emits no hand-off event. -/
theorem checkSdcard_handOff_count (c : CardState) :
    List.countP Event.isHandOff (checkSdcard c).1 = 0 :=
  List.countP_eq_zero.mpr (fun ev hev => by
    have h := (checkSdcard_events c ev hev).1
    cases ev <;> simp_all [Event.residentStep, Event.isHandOff])

/-- The resident-image verification path: it hands off exactly when both the
signature check and the content check pass, records a passing signature check
exactly when the header loads, and records a passing content check exactly
when both checks pass. -/
theorem residentPath_cases (e : MainEnv) :
    ((∃ a, Event.handOff a ∈ (residentPath e).1) ↔
      (e.residentLoadOk = true ∧ e.residentContentOk = true)) ∧
    ((Event.sigCheck ImgSrc.resident true ∈ (residentPath e).1) ↔
      e.residentLoadOk = true) ∧
    ((Event.contentCheck ImgSrc.resident true ∈ (residentPath e).1) ↔
      (e.residentLoadOk = true ∧ e.residentContentOk = true)) := by
  unfold residentPath
  split_ifs with h4 h5 <;> simp_all

/-- C1: in the top-level boot decision, the irreversible hand-off occurs if
and only if both the signature-threshold check (`load_image_header`) and the
content-hash check (`check_image_contents`) succeeded for the image resident
in the bootloader flash region; no execution path reaches the hand-off after
signature success but without content-hash success. -/
theorem boot_handoff_iff_resident_verified (e : MainEnv) :
    (∃ a, Event.handOff a ∈ (mainRun e).1) ↔
      (Event.sigCheck ImgSrc.resident true ∈ (mainRun e).1 ∧
       Event.contentCheck ImgSrc.resident true ∈ (mainRun e).1) := by
  have hchk : ∀ ev ∈ (checkSdcard e.initialCard).1, Event.residentStep ev = false :=
    fun ev h => (checkSdcard_events e.initialCard ev h).1
  have hcopy := copySdcard_no_resident e.copyEnv
  unfold mainRun
  split_ifs with h1 h2 h3
  · simp
  · dsimp only
    constructor
    · rintro ⟨a, ha⟩
      rcases List.mem_append.mp ha with h | h
      · exact absurd (hchk _ h) (by simp [Event.residentStep])
      · exact absurd (hcopy _ h) (by simp [Event.residentStep])
    · rintro ⟨hs, _⟩
      rcases List.mem_append.mp hs with h | h
      · exact absurd (hchk _ h) (by simp [Event.residentStep])
      · exact absurd (hcopy _ h) (by simp [Event.residentStep])
  · dsimp only
    have hrp := residentPath_cases e
    constructor
    · rintro ⟨a, ha⟩
      rcases List.mem_append.mp ha with h | h
      · exact absurd (hchk _ h) (by simp [Event.residentStep])
      · have hv : e.residentLoadOk = true ∧ e.residentContentOk = true := hrp.1.mp ⟨a, h⟩
        exact ⟨List.mem_append.mpr (Or.inr (hrp.2.1.mpr hv.1)),
               List.mem_append.mpr (Or.inr (hrp.2.2.mpr hv))⟩
    · rintro ⟨hs, hcnt⟩
      have hc2 : Event.contentCheck ImgSrc.resident true ∈ (residentPath e).1 := by
        rcases List.mem_append.mp hcnt with h | h
        · exact absurd (hchk _ h) (by simp [Event.residentStep])
        · exact h
      obtain ⟨a, ha⟩ := hrp.1.mpr (hrp.2.2.mp hc2)
      exact ⟨a, List.mem_append.mpr (Or.inr ha)⟩
  · have hrp := residentPath_cases e
    constructor
    · rintro ⟨a, ha⟩
      have hv : e.residentLoadOk = true ∧ e.residentContentOk = true := hrp.1.mp ⟨a, ha⟩
      exact ⟨hrp.2.1.mpr hv.1, hrp.2.2.mpr hv⟩
    · rintro ⟨hs, hcnt⟩
      exact hrp.1.mpr (hrp.2.2.mp hcnt)

/-- A healthy SD card: power-on works, 1 MiB capacity, header read works, the
header loads, and it declares a 1000-byte code region. -/
def okCard : CardState := ⟨true, 1048576, true, true, 1000⟩

/-- An absent/dead SD card: power-on fails. -/
def deadCard : CardState := ⟨false, 0, false, false, 0⟩

/-- A `copy_sdcard` environment in which everything succeeds. -/
def allOkCopyEnv : CopyEnv :=
  ⟨fun _ => okCard, true, true, true, fun _ => true, fun _ _ => true, true⟩

/-- A `copy_sdcard` environment whose card disappears at countdown tick 5. -/
def removedAtTick5 : CopyEnv :=
  ⟨fun i => if i = 5 then deadCard else okCard, true, true, true,
   fun _ => true, fun _ _ => true, true⟩

/-- C2: every erase invocation of the SD-card recovery flow excludes the
boardloader's own flash sectors from the sector list handed to
`flash_erase_sectors`. -/
theorem recovery_erase_excludes_own_sectors (e : CopyEnv) (l : List Nat) (ok : Bool)
    (h : Event.eraseSectors l ok ∈ (copySdcard e).1) :
    ∀ s ∈ boardloaderOwnSectors, s ∉ l := by
  have hl : l = copySdcardEraseList := by
    rcases copySdcard_trace_sub e _ h with hc | hw | hm
    · have hmut := (countdownFrom_events e.cards 10 _ hc).2.1
      simp [Event.flashMutation] at hmut
    · rcases writeBlocks_shape e.readOk e.writeOk _ 0 _ hw with ⟨b, hb⟩ | ⟨off, hb⟩ <;>
        simp at hb
    · simp only [List.mem_cons, List.mem_singleton, List.not_mem_nil, or_false] at hm
      rcases hm with hm | hm | hm | hm | hm <;> simp at hm
      exact hm.1
  subst hl
  decide

/-- Witness for C2: a complete recovery run erases exactly the fixed list,
and boardloader sector 0 is not in it. -/
theorem recovery_erase_excludes_own_sectors_witness :
    (Event.eraseSectors copySdcardEraseList true ∈ (copySdcard allOkCopyEnv).1) ∧
    (0 ∈ boardloaderOwnSectors) ∧ 0 ∉ copySdcardEraseList :=
  ⟨by decide, by decide,
   recovery_erase_excludes_own_sectors allOkCopyEnv copySdcardEraseList true
     (by decide) 0 (by decide)⟩

/-- C3: if detection returns code length 0 at any countdown tick, the
recovery flow returns the failure outcome and its whole trace contains no
flash erase and no flash write. -/
theorem recovery_abort_no_flash_mutation (e : CopyEnv) (i : Nat) (hi : i ≤ 10)
    (hz : (checkSdcard (e.cards i)).2 = 0) :
    (copySdcard e).2 = CopyResult.failure ∧
    ∀ ev ∈ (copySdcard e).1, Event.flashMutation ev = false := by
  have hnone : (countdownFrom e.cards 10).2 = none := by
    cases hcd : (countdownFrom e.cards 10).2 with
    | none => rfl
    | some r => exact absurd hz ((countdownFrom_some e.cards 10 r hcd).1 i hi)
  rw [copySdcard_abort e hnone]
  exact ⟨rfl, fun ev hev => (countdownFrom_events e.cards 10 ev hev).2.1⟩

/-- Witness for C3: with the card removed at tick 5, detection at tick 5
returns 0 and the flow fails. -/
theorem recovery_abort_no_flash_mutation_witness :
    ((5 : Nat) ≤ 10) ∧ ((checkSdcard (removedAtTick5.cards 5)).2 = 0) ∧
    (copySdcard removedAtTick5).2 = CopyResult.failure :=
  ⟨by decide, by decide,
   (recovery_abort_no_flash_mutation removedAtTick5 5 (by decide) (by decide)).1⟩

/-- A `copy_sdcard` environment in which the countdown, erase, unlock and
power-on succeed but the very first word write fails its verification. -/
def writeFailEnv : CopyEnv :=
  ⟨fun _ => okCard, true, true, true, fun _ => true, fun _ _ => false, true⟩

/-- Counterexample to C4: with a failed word write the flow takes the fatal
halt and the flash lock step is never performed, even though the unlock was. -/
theorem copy_write_failure_skips_lock :
    (copySdcard writeFailEnv).2 = CopyResult.halted ∧
    Event.lock ∉ (copySdcard writeFailEnv).1 ∧
    Event.unlock ∈ (copySdcard writeFailEnv).1 := by decide

/-- C4 amended: on a failed block read or failed/unverified word write the
flow halts fatally at once; the flash lock step is not performed, so the
flash is left unlocked (the lock runs only after the whole write sequence
succeeded). -/
theorem copy_failure_halts_without_lock (e : CopyEnv)
    (hu : e.unlockOk = true) (hp : e.powerOnOk = true) (hl : e.lockOk = true)
    (hh : (copySdcard e).2 = CopyResult.halted) :
    Event.lock ∉ (copySdcard e).1 ∧ Event.unlock ∈ (copySdcard e).1 := by
  rcases hcd : (countdownFrom e.cards 10).2 with _ | r
  · rw [copySdcard_abort e hcd] at hh
    exact absurd hh (by simp)
  · have hcdne : ¬(countdownFrom e.cards 10).2 = none := by rw [hcd]; simp
    have hu' : ¬(e.unlockOk = false) := by simp [hu]
    have hp' : ¬(e.powerOnOk = false) := by simp [hp]
    have hl' : ¬(e.lockOk = false) := by simp [hl]
    by_cases he : e.eraseOk = false
    · exfalso
      unfold copySdcard at hh
      rw [if_neg hcdne] at hh
      dsimp only at hh
      rw [if_pos he] at hh
      exact absurd hh (by simp)
    · unfold copySdcard at hh ⊢
      rw [if_neg hcdne] at hh ⊢
      dsimp only at hh ⊢
      rw [if_neg he, if_neg hu', if_neg hp'] at hh ⊢
      by_cases hwb : (writeBlocks e.readOk e.writeOk 0
          (nBlocks ((countdownFrom e.cards 10).2.getD 0))).2 = false
      · rw [if_pos hwb] at hh ⊢
        constructor
        · intro hmem
          simp only [List.append_assoc, List.mem_append, List.mem_cons,
            List.mem_singleton, List.not_mem_nil, or_false, List.append_nil,
            List.cons_append, List.nil_append] at hmem
          rcases hmem with hmem | hmem | hmem | hmem | hmem
          · exact (countdownFrom_events e.cards 10 _ hmem).2.2.1 rfl
          · simp at hmem
          · simp at hmem
          · simp at hmem
          · rcases writeBlocks_shape e.readOk e.writeOk _ 0 _ hmem with
              ⟨b, hb⟩ | ⟨off, hb⟩ <;> simp at hb
        · simp [List.mem_append]
      · exfalso
        rw [if_neg hwb] at hh
        rw [if_neg hl'] at hh
        exact absurd hh (by simp)

/-- Witness for C4 amended: the write-failure environment satisfies the
hypotheses and indeed halts with the flash left unlocked. -/
theorem copy_failure_halts_without_lock_witness :
    ((copySdcard writeFailEnv).2 = CopyResult.halted) ∧
    Event.lock ∉ (copySdcard writeFailEnv).1 ∧
    Event.unlock ∈ (copySdcard writeFailEnv).1 :=
  ⟨by decide,
   (copy_failure_halts_without_lock writeFailEnv rfl rfl rfl (by decide)).1,
   (copy_failure_halts_without_lock writeFailEnv rfl rfl rfl (by decide)).2⟩

/-- A card whose header-sized prefix passes `load_image_header`, declaring a
12345-byte code region. -/
def fineCard : CardState := ⟨true, 1048576, true, true, 12345⟩

/-- Counterexample to C5: detection reports a nonzero code length although no
content check was ever performed (so a passing one cannot be required). -/
theorem detection_reports_without_content_check :
    (checkSdcard fineCard).2 ≠ 0 ∧
    ∀ b, Event.contentCheck ImgSrc.card b ∉ (checkSdcard fineCard).1 := by decide

/-- C5 amended: detection runs the header-sized prefix through the
image-header loader only (whose success implies the signature-threshold
check); a nonzero code length is reported exactly for a successful block read
and header load, and the content checker is never invoked by detection. -/
theorem detection_header_load_only (c : CardState) (h : (checkSdcard c).2 ≠ 0) :
    c.readOk = true ∧ c.loadOk = true ∧
    Event.sigCheck ImgSrc.card true ∈ (checkSdcard c).1 ∧
    (∀ b, Event.contentCheck ImgSrc.card b ∉ (checkSdcard c).1) ∧
    (checkSdcard c).2 = c.codelen := by
  unfold checkSdcard at h ⊢
  split_ifs at h ⊢ with h1 h2 h3 h4
  · exact absurd rfl h
  · exact absurd rfl h
  · exact absurd rfl h
  · refine ⟨by simpa using h3, h4, by simp, fun b hb => ?_, rfl⟩
    simp at hb
  · exact absurd rfl h

/-- Witness for C5 amended: the passing card yields its declared code length
and a recorded passing signature check. -/
theorem detection_header_load_only_witness :
    (checkSdcard fineCard).2 ≠ 0 ∧ (checkSdcard fineCard).2 = fineCard.codelen ∧
    Event.sigCheck ImgSrc.card true ∈ (checkSdcard fineCard).1 :=
  ⟨by decide, (detection_header_load_only fineCard (by decide)).2.2.2.2,
   (detection_header_load_only fineCard (by decide)).2.2.1⟩

/-- Counterexample to C6: with a steadily valid card the countdown performs
11 one-second ticks (loop counter 10 down to 0), not 10. -/
theorem countdown_has_eleven_ticks :
    List.countP Event.isDelay (countdownFrom (fun _ => okCard) 10).1 = 11 ∧
    List.countP Event.isDelay (countdownFrom (fun _ => okCard) 10).1 ≠ 10 := by decide

/-- C6 amended: the confirmation countdown consists of exactly 11 ticks of
1000 ms each (the loop counts 10 down to 0 inclusive), and detection is
re-run (one card power-on attempt) on every tick. -/
theorem countdown_eleven_ticks_poll_each (cards : Nat → CardState)
    (h : ∀ i, i ≤ 10 → (checkSdcard (cards i)).2 ≠ 0) :
    (countdownFrom cards 10).2 = some ((checkSdcard (cards 0)).2) ∧
    List.countP Event.isDelay (countdownFrom cards 10).1 = 11 ∧
    List.countP Event.isPowerOn (countdownFrom cards 10).1 = 11 :=
  countdownFrom_complete cards 10 h

/-- The card sequence in which every tick observes the same healthy card. -/
def steadyCards : Nat → CardState := fun _ => okCard

/-- Every countdown tick over the steady card sequence detects a candidate. -/
theorem steadyCards_detect_nonzero :
    ∀ i : Nat, i ≤ 10 → (checkSdcard (steadyCards i)).2 ≠ 0 := by
  intro i hi
  simp [steadyCards, checkSdcard, okCard]

/-- Witness for C6 amended: a steadily valid card survives with 11 delays and
11 detections. -/
theorem countdown_eleven_ticks_poll_each_witness :
    (countdownFrom steadyCards 10).2 = some ((checkSdcard (steadyCards 0)).2) ∧
    List.countP Event.isDelay (countdownFrom steadyCards 10).1 = 11 ∧
    List.countP Event.isPowerOn (countdownFrom steadyCards 10).1 = 11 :=
  countdown_eleven_ticks_poll_each steadyCards steadyCards_detect_nonzero

/-- C7: a failed flash option-bytes configuration wipes the storage sectors
(the erase result is never consulted) and terminates with status 2, distinct
from the success status 0 and the media-update-failure status 3. -/
theorem option_bytes_failure_wipes_and_exits (e : MainEnv)
    (h : e.optionBytesOk = false) :
    (mainRun e).2 = Outcome.exit 2 ∧
    Event.eraseSectors STORAGE_SECTORS e.storageEraseOk ∈ (mainRun e).1 ∧
    Outcome.exit 2 ≠ Outcome.exit 0 ∧ Outcome.exit 2 ≠ Outcome.exit 3 := by
  unfold mainRun
  rw [if_pos h]
  exact ⟨rfl, by simp, by simp, by simp⟩

/-- A `main` environment whose option-bytes configuration fails (and whose
best-effort storage wipe also fails, which must not change the outcome). -/
def cfgFailEnv : MainEnv := ⟨false, false, true, okCard, allOkCopyEnv, true, true⟩

/-- Witness for C7. -/
theorem option_bytes_failure_wipes_and_exits_witness :
    (mainRun cfgFailEnv).2 = Outcome.exit 2 ∧
    Event.eraseSectors STORAGE_SECTORS cfgFailEnv.storageEraseOk ∈ (mainRun cfgFailEnv).1 ∧
    Outcome.exit 2 ≠ Outcome.exit 0 ∧ Outcome.exit 2 ≠ Outcome.exit 3 :=
  option_bytes_failure_wipes_and_exits cfgFailEnv rfl

/-- C8: when the resident image passes both header and content verification
(and no SD-card candidate preempts it), exactly one hand-off occurs, and its
target is `BOOTLOADER_START + IMAGE_HEADER_SIZE`, the offset immediately
after the header. -/
theorem resident_verified_single_handoff (e : MainEnv)
    (hopt : e.optionBytesOk = true)
    (hsd : e.modelT = false ∨ (checkSdcard e.initialCard).2 = 0)
    (hload : e.residentLoadOk = true) (hcontent : e.residentContentOk = true) :
    (mainRun e).2 = Outcome.handOff (BOOTLOADER_START + IMAGE_HEADER_SIZE) ∧
    List.countP Event.isHandOff (mainRun e).1 = 1 ∧
    Event.handOff (BOOTLOADER_START + IMAGE_HEADER_SIZE) ∈ (mainRun e).1 := by
  have hopt' : ¬(e.optionBytesOk = false) := by simp [hopt]
  have hrp : residentPath e =
      ([Event.sigCheck ImgSrc.resident true, Event.contentCheck ImgSrc.resident true,
        Event.handOff (BOOTLOADER_START + IMAGE_HEADER_SIZE)],
       Outcome.handOff (BOOTLOADER_START + IMAGE_HEADER_SIZE)) := by
    unfold residentPath
    rw [if_neg (by simp [hload]), if_neg (by simp [hcontent])]
  unfold mainRun
  rw [if_neg hopt']
  by_cases hm : e.modelT = true
  · have hz : (checkSdcard e.initialCard).2 = 0 := by
      rcases hsd with hmf | hz
      · rw [hm] at hmf; exact absurd hmf (by simp)
      · exact hz
    rw [if_pos hm, if_neg (by simp [hz])]
    dsimp only
    rw [hrp]
    refine ⟨rfl, ?_, by simp⟩
    rw [List.countP_append, checkSdcard_handOff_count]
    simp [List.countP_cons, Event.isHandOff]
  · rw [if_neg hm, hrp]
    refine ⟨rfl, ?_, by simp⟩
    simp [List.countP_cons, Event.isHandOff]

/-- A `main` environment without the SD-card capability and with a fully
valid resident bootloader image. -/
def residentOkEnv : MainEnv := ⟨true, true, false, okCard, allOkCopyEnv, true, true⟩

/-- Witness for C8. -/
theorem resident_verified_single_handoff_witness :
    (mainRun residentOkEnv).2 = Outcome.handOff (BOOTLOADER_START + IMAGE_HEADER_SIZE) ∧
    List.countP Event.isHandOff (mainRun residentOkEnv).1 = 1 ∧
    Event.handOff (BOOTLOADER_START + IMAGE_HEADER_SIZE) ∈ (mainRun residentOkEnv).1 :=
  resident_verified_single_handoff residentOkEnv rfl (Or.inl rfl) rfl rfl

/-- C9: detection reports no candidate for any card below 1 MiB capacity,
and whenever power-on succeeded, power-off is performed before detection
returns, on every branch. -/
theorem detection_capacity_floor_and_poweroff (c : CardState) :
    (c.capacity < 1024 * 1024 → (checkSdcard c).2 = 0) ∧
    (c.powerOnOk = true → Event.powerOff ∈ (checkSdcard c).1) := by
  unfold checkSdcard
  split_ifs with h1 h2 h3 h4 <;> constructor <;> intro hx <;> simp_all

/-- A powered card whose reported capacity is below 1 MiB. -/
def lowCapCard : CardState := ⟨true, 1048575, true, true, 7⟩

/-- Witness for C9. -/
theorem detection_capacity_floor_and_poweroff_witness :
    (checkSdcard lowCapCard).2 = 0 ∧ Event.powerOff ∈ (checkSdcard lowCapCard).1 :=
  ⟨(detection_capacity_floor_and_poweroff lowCapCard).1 (by decide),
   (detection_capacity_floor_and_poweroff lowCapCard).2 rfl⟩

/-- C10: the recovery write loop copies exactly
`(IMAGE_HEADER_SIZE + codelen) / SDCARD_BLOCK_SIZE` blocks (integer
division), and every word it writes lies strictly below that many blocks, so
the trailing remainder bytes of a total size not divisible by the block size
are never written. -/
theorem copy_loop_block_count (codelen : Nat) (rOk : Nat → Bool) (wOk : Nat → Nat → Bool)
    (hsz : IMAGE_HEADER_SIZE + codelen < 2 ^ 32)
    (hok : (writeBlocks rOk wOk 0 (nBlocks codelen)).2 = true) :
    List.countP Event.isReadBlocks (writeBlocks rOk wOk 0 (nBlocks codelen)).1 =
      (IMAGE_HEADER_SIZE + codelen) / SDCARD_BLOCK_SIZE ∧
    ∀ s off, Event.writeWord s off ∈ (writeBlocks rOk wOk 0 (nBlocks codelen)).1 →
      off + 4 ≤ ((IMAGE_HEADER_SIZE + codelen) / SDCARD_BLOCK_SIZE) * SDCARD_BLOCK_SIZE := by
  have hn : nBlocks codelen = (IMAGE_HEADER_SIZE + codelen) / SDCARD_BLOCK_SIZE := by
    unfold nBlocks
    rw [Nat.mod_eq_of_lt hsz]
  constructor
  · rw [writeBlocks_count rOk wOk (nBlocks codelen) 0 hok, hn]
  · intro s off hmem
    have hoff := writeBlocks_offset rOk wOk (nBlocks codelen) 0 s off hmem
    rw [hn] at hoff
    simpa using hoff

/-- Witness for C10: with a 700-byte code length, 1724 bytes round down to 3
blocks of 512 bytes. -/
theorem copy_loop_block_count_witness :
    (IMAGE_HEADER_SIZE + 700 < 2 ^ 32) ∧
    ((writeBlocks (fun _ => true) (fun _ _ => true) 0 (nBlocks 700)).2 = true) ∧
    List.countP Event.isReadBlocks
        (writeBlocks (fun _ => true) (fun _ _ => true) 0 (nBlocks 700)).1 =
      (IMAGE_HEADER_SIZE + 700) / SDCARD_BLOCK_SIZE :=
  ⟨by decide, by decide,
   (copy_loop_block_count 700 (fun _ => true) (fun _ _ => true) (by decide) (by decide)).1⟩

/-- Witness for C1: the equivalence instantiated at a concrete verified-image
environment. -/
theorem boot_handoff_iff_resident_verified_witness :
    (∃ a, Event.handOff a ∈ (mainRun residentOkEnv).1) ↔
      (Event.sigCheck ImgSrc.resident true ∈ (mainRun residentOkEnv).1 ∧
       Event.contentCheck ImgSrc.resident true ∈ (mainRun residentOkEnv).1) :=
  boot_handoff_iff_resident_verified residentOkEnv
